import Mathlib

/-
Verification of the pallet-balances maintenance tool
(scripts/accounts-invariants/pallet-balances-maintenance.py).

The Python script is shallowly embedded below: every balance field is a
natural number (all chain balances are unsigned integers), the chain
account iterator becomes an explicit list of pages, logging becomes an
explicit list of log entries, exceptions become `Option`/flags, and
process exit codes become an `Option Nat` decision.
-/

/-- One entry of the `System.Accounts` storage map: all balance and
reference-counter fields read by the script, as non-negative integers.
Fields of both regimes are present, mirroring the Python dict which simply
holds whatever fields the runtime version serialises. -/
structure AccountInfo where
  providers : Nat
  consumers : Nat
  free : Nat
  reserved : Nat
  misc_frozen : Nat
  fee_frozen : Nat
  frozen : Nat
  flags : Nat
  deriving DecidableEq, Repr

/-- The two major-version regimes of the chain (`ChainMajorVersion` enum). -/
inductive ChainMajorVersion where
  | PRE_12_MAJOR_VERSION
  | AT_LEAST_12_MAJOR_VERSION
  deriving DecidableEq, Repr

/-- Model of `ChainMajorVersion.from_spec_version`: classifies a spec version,
`spec_version <= 65` is pre-12, anything larger is at-least-12. -/
def ChainMajorVersion.from_spec_version (spec_version : Int) : ChainMajorVersion :=
  if spec_version ≤ 65 then ChainMajorVersion.PRE_12_MAJOR_VERSION
  else ChainMajorVersion.AT_LEAST_12_MAJOR_VERSION

/-- Model of `check_account_invariants`: the version-dependent invariant predicate over
one account, a direct translation of the Python function. -/
def check_account_invariants (account : AccountInfo)
    (chain_major_version : ChainMajorVersion) (ed : Nat) : Bool :=
  let providers := account.providers
  let consumers := account.consumers
  let free := account.free
  let reserved := account.reserved
  let account_ref_counter_invariant : Bool :=
    (decide (providers ≤ 1) && decide (consumers = 0)) ||
      (decide (consumers > 0) && decide (providers = 1))
  match chain_major_version with
  | ChainMajorVersion.PRE_12_MAJOR_VERSION =>
    let misc_frozen := account.misc_frozen
    let fee_frozen := account.fee_frozen
    let ed_is_for_total_balance_invariant : Bool := decide (free + reserved ≥ ed)
    let locked_balance_is_on_free_balance_invariant : Bool :=
      decide (free ≥ max misc_frozen fee_frozen)
    account_ref_counter_invariant &&
      ed_is_for_total_balance_invariant &&
      locked_balance_is_on_free_balance_invariant
  | ChainMajorVersion.AT_LEAST_12_MAJOR_VERSION =>
    let frozen := account.frozen
    let flags := account.flags
    let ed_is_for_free_balance_only_invariant : Bool := decide (free ≥ ed)
    let locked_balance_is_on_total_balance_invariant : Bool :=
      decide (free + reserved ≥ frozen)
    let is_account_already_upgraded : Bool := decide (flags ≥ 2 ^ 127)
    let consumer_ref_applies_to_suspended_balances_invariant : Bool :=
      !is_account_already_upgraded ||
        (decide (frozen = 0) && decide (reserved = 0)) || decide (consumers > 0)
    account_ref_counter_invariant &&
      ed_is_for_free_balance_only_invariant &&
      locked_balance_is_on_total_balance_invariant &&
      consumer_ref_applies_to_suspended_balances_invariant

/-- Model of `check_if_account_would_be_dust_in_12_version`, the dust predicate.
The two Python `assert` statements are modelled by returning `none`
(an `AssertionError` aborts the run, no boolean is produced); on the
normal path the result is `some (free < ed)`. -/
def check_if_account_would_be_dust_in_12_version (account : AccountInfo)
    (chain_major_version : ChainMajorVersion) (ed : Nat) : Option Bool :=
  if chain_major_version = ChainMajorVersion.PRE_12_MAJOR_VERSION then
    if check_account_invariants account chain_major_version ed then
      some (decide (account.free < ed))
    else none
  else none

/-- A convenient all-zero account whose free balance is `n`; used only to
build concrete test inputs. -/
def mkAccount (n : Nat) : AccountInfo :=
  { providers := 0, consumers := 0, free := n, reserved := 0,
    misc_frozen := 0, fee_frozen := 0, frozen := 0, flags := 0 }

/-- One step of the `filter_false_accounts` loop body: bump the visited
counter and append the entry to the violation list when the predicate is
false. -/
def scan_step (check_accounts_predicate : AccountInfo → ChainMajorVersion → Nat → Bool)
    (chain_major_version : ChainMajorVersion) (ed : Nat)
    (state : Nat × List (Nat × AccountInfo)) (entry : Nat × AccountInfo) :
    Nat × List (Nat × AccountInfo) :=
  (state.1 + 1,
   if check_accounts_predicate entry.2 chain_major_version ed then state.2
   else state.2 ++ [entry])

/-- Model of `filter_false_accounts`, the paginated scanner.  The chain iterator is
modelled as a list of pages of `(account_id, info)` pairs, iterated in yield
order (pages flattened); the result is the total visited count (which the
script emits as telemetry) together with the accumulated violation list. -/
def filter_false_accounts
    (check_accounts_predicate : AccountInfo → ChainMajorVersion → Nat → Bool)
    (chain_major_version : ChainMajorVersion) (ed : Nat)
    (account_pages : List (List (Nat × AccountInfo))) :
    Nat × List (Nat × AccountInfo) :=
  account_pages.flatten.foldl
    (scan_step check_accounts_predicate chain_major_version ed) (0, [])

/-- A scanner variant for a fallible predicate: if the predicate aborts
(`none`, an uncaught `AssertionError` in Python) the whole scan aborts. -/
def filter_false_accountsM
    (check_accounts_predicate : AccountInfo → ChainMajorVersion → Nat → Option Bool)
    (chain_major_version : ChainMajorVersion) (ed : Nat)
    (account_pages : List (List (Nat × AccountInfo))) :
    Option (Nat × List (Nat × AccountInfo)) :=
  account_pages.flatten.foldl
    (fun acc entry =>
      acc.bind fun state =>
        (check_accounts_predicate entry.2 chain_major_version ed).map fun b =>
          (state.1 + 1, if b then state.2 else state.2 ++ [entry]))
    (some (0, []))

/-- Model of `find_dust_accounts`: scans for accounts valid in pre-12 that would be
dust in 12; the entry `assert` on the regime and the per-account `assert`
inside the dust predicate are modelled by `none`. -/
def find_dust_accounts (ed : Nat) (chain_major_version : ChainMajorVersion)
    (account_pages : List (List (Nat × AccountInfo))) :
    Option (Nat × List (Nat × AccountInfo)) :=
  if chain_major_version = ChainMajorVersion.PRE_12_MAJOR_VERSION then
    filter_false_accountsM
      (fun x y z => (check_if_account_would_be_dust_in_12_version x y z).map (fun b => !b))
      chain_major_version ed account_pages
  else none

/-- The worklist built by `upgrade_accounts`: the scanner run with the
constant-false predicate, keeping only the account ids. -/
def upgrade_accounts_worklist (chain_major_version : ChainMajorVersion) (ed : Nat)
    (account_pages : List (List (Nat × AccountInfo))) : List Nat :=
  ((filter_false_accounts (fun _ _ _ => false) chain_major_version ed
      account_pages).2).map Prod.fst

/-- The five-page synthetic account source of the scanner test: page sizes
3, 3, 3, 3, 1; account ids 1..13 in yield order, the id also stored as the
free balance so a predicate can single accounts out. -/
def pages5 : List (List (Nat × AccountInfo)) :=
  [[(1, mkAccount 1), (2, mkAccount 2), (3, mkAccount 3)],
   [(4, mkAccount 4), (5, mkAccount 5), (6, mkAccount 6)],
   [(7, mkAccount 7), (8, mkAccount 8), (9, mkAccount 9)],
   [(10, mkAccount 10), (11, mkAccount 11), (12, mkAccount 12)],
   [(13, mkAccount 13)]]

/-- A predicate false exactly on accounts #2 and #9 of `pages5`. -/
def pred5 : AccountInfo → ChainMajorVersion → Nat → Bool :=
  fun account _ _ => !(account.free == 2 || account.free == 9)

/-- The scanner fold, from any starting state: it adds the number of visited
entries to the counter and appends, in yield order, exactly the entries the
predicate rejects. -/
theorem scan_foldl_spec
    (pred : AccountInfo → ChainMajorVersion → Nat → Bool)
    (v : ChainMajorVersion) (ed : Nat) (l : List (Nat × AccountInfo))
    (c : Nat) (acc : List (Nat × AccountInfo)) :
    l.foldl (scan_step pred v ed) (c, acc)
      = (c + l.length, acc ++ l.filter (fun e => !pred e.2 v ed)) := by
  induction l generalizing c acc with
  | nil => simp
  | cons e t ih =>
    simp only [List.foldl_cons, scan_step, List.filter_cons, List.length_cons]
    cases h : pred e.2 v ed with
    | true =>
      rw [ih]
      simp [h]
      omega
    | false =>
      rw [ih]
      simp [h]
      omega

/-- C1: the pre-upgrade invariant predicate is true exactly when the shared
reference-counter invariant holds, `free + reserved ≥ ED`, and
`free ≥ max(misc_frozen, fee_frozen)`; it is a total boolean function. -/
theorem check_account_invariants_pre_upgrade_iff (account : AccountInfo) (ed : Nat) :
    check_account_invariants account ChainMajorVersion.PRE_12_MAJOR_VERSION ed = true ↔
      (((account.providers ≤ 1 ∧ account.consumers = 0) ∨
          (account.consumers > 0 ∧ account.providers = 1)) ∧
        account.free + account.reserved ≥ ed ∧
        account.free ≥ max account.misc_frozen account.fee_frozen) := by
  simp [check_account_invariants, and_assoc]

/-- C2: the at-least-upgrade invariant predicate is true exactly when the
shared reference-counter invariant holds, `free ≥ ED`,
`free + reserved ≥ frozen`, and the upgraded-account consumer rule holds
with `upgraded = (flags ≥ 2^127)`; in particular any account with
`free < ED` fails the predicate, even when `free + reserved ≥ ED`. -/
theorem check_account_invariants_at_least_upgrade (account : AccountInfo) (ed : Nat) :
    (check_account_invariants account ChainMajorVersion.AT_LEAST_12_MAJOR_VERSION ed = true ↔
      (((account.providers ≤ 1 ∧ account.consumers = 0) ∨
          (account.consumers > 0 ∧ account.providers = 1)) ∧
        account.free ≥ ed ∧
        account.free + account.reserved ≥ account.frozen ∧
        (¬ account.flags ≥ 2 ^ 127 ∨ (account.frozen = 0 ∧ account.reserved = 0) ∨
          account.consumers > 0))) ∧
    (account.free < ed →
      check_account_invariants account ChainMajorVersion.AT_LEAST_12_MAJOR_VERSION ed
        = false) := by
  constructor
  · simp [check_account_invariants, and_assoc, or_assoc]
  · intro hlt
    simp only [check_account_invariants, Bool.and_eq_false_iff]
    refine Or.inl (Or.inl (Or.inr ?_))
    simpa using Nat.not_le.mpr hlt

/-- Witness for C2: a concrete account with `free < ED` but
`free + reserved ≥ ED` fails the at-least-upgrade predicate. -/
theorem check_account_invariants_at_least_upgrade_witness :
    check_account_invariants
      { providers := 1, consumers := 0, free := 3, reserved := 10,
        misc_frozen := 0, fee_frozen := 0, frozen := 0, flags := 0 }
      ChainMajorVersion.AT_LEAST_12_MAJOR_VERSION 5 = false :=
  (check_account_invariants_at_least_upgrade
    { providers := 1, consumers := 0, free := 3, reserved := 10,
      misc_frozen := 0, fee_frozen := 0, frozen := 0, flags := 0 } 5).2 (by decide)

/-- C3: under the contract (regime `PRE_12`, account satisfies the pre-upgrade
invariants) the dust predicate returns `some (free < ed)`; on an account that
fails the pre-upgrade invariants it aborts (returns `none`), and with regime
`AT_LEAST_12` it aborts (returns `none`) for every account. -/
theorem check_if_account_would_be_dust_contract (account : AccountInfo) (ed : Nat) :
    (check_account_invariants account ChainMajorVersion.PRE_12_MAJOR_VERSION ed = true →
      check_if_account_would_be_dust_in_12_version account
          ChainMajorVersion.PRE_12_MAJOR_VERSION ed
        = some (decide (account.free < ed))) ∧
    (check_account_invariants account ChainMajorVersion.PRE_12_MAJOR_VERSION ed = false →
      check_if_account_would_be_dust_in_12_version account
          ChainMajorVersion.PRE_12_MAJOR_VERSION ed = none) ∧
    check_if_account_would_be_dust_in_12_version account
        ChainMajorVersion.AT_LEAST_12_MAJOR_VERSION ed = none := by
  refine ⟨fun h => ?_, fun h => ?_, ?_⟩
  · simp [check_if_account_would_be_dust_in_12_version, h]
  · simp [check_if_account_would_be_dust_in_12_version, h]
  · simp [check_if_account_would_be_dust_in_12_version]

/-- Witness for C3: a valid pre-upgrade account with `free = 1 < ED = 2` is
dust (`some true`); the same account under `AT_LEAST_12` yields `none`. -/
theorem check_if_account_would_be_dust_contract_witness :
    check_if_account_would_be_dust_in_12_version
        { providers := 1, consumers := 0, free := 1, reserved := 5,
          misc_frozen := 0, fee_frozen := 0, frozen := 0, flags := 0 }
        ChainMajorVersion.PRE_12_MAJOR_VERSION 2 = some true ∧
    check_if_account_would_be_dust_in_12_version
        { providers := 1, consumers := 0, free := 1, reserved := 5,
          misc_frozen := 0, fee_frozen := 0, frozen := 0, flags := 0 }
        ChainMajorVersion.AT_LEAST_12_MAJOR_VERSION 2 = none := by
  constructor
  · have h := (check_if_account_would_be_dust_contract
      { providers := 1, consumers := 0, free := 1, reserved := 5,
        misc_frozen := 0, fee_frozen := 0, frozen := 0, flags := 0 } 2).1 (by decide)
    simpa using h
  · exact (check_if_account_would_be_dust_contract
      { providers := 1, consumers := 0, free := 1, reserved := 5,
        misc_frozen := 0, fee_frozen := 0, frozen := 0, flags := 0 } 2).2.2

/-- C4: the scanner returns the count of all visited accounts together with
the entries the predicate rejects, in exactly the yield order of the chain
iterator; on the synthetic 5-page source of sizes 3,3,3,3,1 with a predicate
false exactly on accounts #2 and #9 it returns count 13 and exactly those
two accounts, in yield order. -/
theorem filter_false_accounts_scan_correct :
    (∀ (pred : AccountInfo → ChainMajorVersion → Nat → Bool)
       (v : ChainMajorVersion) (ed : Nat)
       (pages : List (List (Nat × AccountInfo))),
      (filter_false_accounts pred v ed pages).1 = pages.flatten.length ∧
      (filter_false_accounts pred v ed pages).2
        = pages.flatten.filter (fun e => !pred e.2 v ed)) ∧
    filter_false_accounts pred5 ChainMajorVersion.PRE_12_MAJOR_VERSION 0 pages5
      = (13, [(2, mkAccount 2), (9, mkAccount 9)]) := by
  constructor
  · intro pred v ed pages
    have h := scan_foldl_spec pred v ed pages.flatten 0 []
    refine ⟨?_, ?_⟩
    · simp [filter_false_accounts, h]
    · simp [filter_false_accounts, h]
  · decide

/-- C5 counterexample: with a predicate that returns true for every account,
the scanner's returned list is empty, hence does not contain the accounts of
a nonempty chain. -/
theorem scanner_always_true_returns_nothing :
    (filter_false_accounts (fun _ _ _ => true)
        ChainMajorVersion.PRE_12_MAJOR_VERSION 0 [[(1, mkAccount 1)]]).2 = [] ∧
    (1, mkAccount 1) ∉ (filter_false_accounts (fun _ _ _ => true)
        ChainMajorVersion.PRE_12_MAJOR_VERSION 0 [[(1, mkAccount 1)]]).2 := by
  constructor
  · rfl
  · decide

/-- C5 (amended): the scanner run with the constant-false predicate — the one
`upgrade_accounts` actually passes — returns every account of the chain
iterator, and the upgrade worklist is exactly all account ids in yield
order. -/
theorem scanner_always_false_lists_all_accounts
    (v : ChainMajorVersion) (ed : Nat) (pages : List (List (Nat × AccountInfo))) :
    (filter_false_accounts (fun _ _ _ => false) v ed pages).2 = pages.flatten ∧
    upgrade_accounts_worklist v ed pages = pages.flatten.map Prod.fst := by
  have h := scan_foldl_spec (fun _ _ _ => false) v ed pages.flatten 0 []
  have hfilter : List.filter (fun (e : Nat × AccountInfo) => !(fun _ _ _ => false) e.2 v ed)
      pages.flatten = pages.flatten :=
    List.filter_eq_self.mpr (fun a _ => rfl)
  constructor
  · simp only [filter_false_accounts, h, hfilter, List.nil_append]
  · simp only [upgrade_accounts_worklist, filter_false_accounts, h, hfilter, List.nil_append]

/-- C6: the version classifier maps `v ≤ 65` to `PRE_12_MAJOR_VERSION` and
`v > 65` to `AT_LEAST_12_MAJOR_VERSION`; in particular 65 is pre-12 and 66
is at-least-12.  It is a total function on the integers. -/
theorem from_spec_version_correct :
    (∀ v : Int,
      (ChainMajorVersion.from_spec_version v = ChainMajorVersion.PRE_12_MAJOR_VERSION
        ↔ v ≤ 65) ∧
      (ChainMajorVersion.from_spec_version v = ChainMajorVersion.AT_LEAST_12_MAJOR_VERSION
        ↔ 65 < v)) ∧
    ChainMajorVersion.from_spec_version 65 = ChainMajorVersion.PRE_12_MAJOR_VERSION ∧
    ChainMajorVersion.from_spec_version 66 = ChainMajorVersion.AT_LEAST_12_MAJOR_VERSION := by
  refine ⟨fun v => ?_, by decide, by decide⟩
  unfold ChainMajorVersion.from_spec_version
  split <;> rename_i h
  · exact ⟨⟨fun _ => h, fun _ => rfl⟩,
      ⟨fun hc => absurd hc (by decide), fun hc => absurd h (by omega)⟩⟩
  · exact ⟨⟨fun hc => absurd hc (by decide), fun hc => absurd hc h⟩,
      ⟨fun _ => by omega, fun _ => rfl⟩⟩


/-- Model of `chunks`: lazily split a list into `n`-sized contiguous slices, a direct
translation of the Python generator (`for i in range(0, len(l), n): yield
l[i:i+n]`); with step `0` Python raises, modelled as the empty result. -/
def chunks {α : Type} : List α → Nat → List (List α)
  | _, 0 => []
  | [], _ + 1 => []
  | a :: t, n + 1 => ((a :: t).take (n + 1)) :: chunks ((a :: t).drop (n + 1)) (n + 1)
termination_by l _ => l.length
decreasing_by simp; omega

theorem chunks_nil {α : Type} (n : Nat) : chunks ([] : List α) n = [] := by
  cases n <;> simp [chunks]

theorem chunks_flatten {α : Type} (l : List α) (n : Nat) (hn : 1 ≤ n) :
    (chunks l n).flatten = l := by
  induction l, n using chunks.induct with
  | case1 l => omega
  | case2 n => simp [chunks]
  | case3 a t n ih =>
    rw [chunks]
    simp only [List.flatten_cons, ih (by omega)]
    exact List.take_append_drop _ _

theorem chunks_length {α : Type} (l : List α) (n : Nat) (hn : 1 ≤ n) :
    (chunks l n).length = (l.length + n - 1) / n := by
  induction l, n using chunks.induct with
  | case1 l => omega
  | case2 n =>
    simp [chunks]
    exact (Nat.div_eq_of_lt (by omega)).symm
  | case3 a t n ih =>
    rw [chunks]
    simp only [List.length_cons, ih (by omega), List.length_drop,
      Nat.succ_eq_add_one]
    rcases le_or_lt (t.length + 1) (n + 1) with hle | hlt
    · have hz : t.length + 1 - (n + 1) = 0 := by omega
      have h0 : (0 : Nat) + (n + 1) - 1 = n := by omega
      have he : t.length + 1 + (n + 1) - 1 = t.length + (n + 1) := by omega
      rw [hz, h0, he, Nat.add_div_right _ (by omega), Nat.div_eq_of_lt (by omega),
        Nat.div_eq_of_lt (by omega)]
    · have hd : ∀ x : Nat, (x + (n + 1)) / (n + 1) = x / (n + 1) + 1 :=
        fun x => Nat.add_div_right x (by omega)
      have h2 : t.length + 1 - (n + 1) + (n + 1) - 1 = t.length - n - 1 + (n + 1) := by
        omega
      have h3 : t.length + 1 + (n + 1) - 1 = t.length - n - 1 + (n + 1) + (n + 1) := by
        omega
      simp only [h2, h3, hd]

theorem chunks_le {α : Type} (l : List α) (n : Nat) (hn : 1 ≤ n) :
    ∀ c ∈ chunks l n, c.length ≤ n := by
  induction l, n using chunks.induct with
  | case1 l => omega
  | case2 n => simp [chunks]
  | case3 a t n ih =>
    rw [chunks]
    intro c hc
    rcases List.mem_cons.mp hc with h | h
    · subst h
      simp
    · exact ih (by omega) c h

theorem chunks_ne_nil {α : Type} (a : α) (t : List α) (n : Nat) :
    chunks (a :: t) (n + 1) ≠ [] := by
  rw [chunks]
  simp

theorem chunks_dropLast {α : Type} (l : List α) (n : Nat) (hn : 1 ≤ n) :
    ∀ c ∈ (chunks l n).dropLast, c.length = n := by
  induction l, n using chunks.induct with
  | case1 l => omega
  | case2 n => simp [chunks]
  | case3 a t n ih =>
    rw [chunks]
    rcases eq_or_ne (List.drop (n + 1) (a :: t)) ([] : List α) with hdrop | hdrop
    · rw [hdrop, chunks_nil]
      simp
    · obtain ⟨b, u, hbu⟩ := List.exists_cons_of_ne_nil hdrop
      have hne : chunks (List.drop (n + 1) (a :: t)) (n + 1) ≠ [] := by
        rw [hbu]
        exact chunks_ne_nil b u n
      rw [List.dropLast_cons_of_ne_nil hne]
      intro c hc
      rcases List.mem_cons.mp hc with h | h
      · subst h
        have hgt : n + 1 < (a :: t).length := by
          by_contra hcon
          exact hdrop (List.drop_eq_nil_of_le (by omega))
        simp only [List.length_take, List.length_cons]
        simp only [List.length_cons] at hgt
        omega
      · exact ih (by omega) c h

/-- Unfolding equation of `chunks` for a nonempty list, stated without the
cons pattern. -/
theorem chunks_eq_cons {α : Type} (l : List α) (n : Nat) (hl : l ≠ []) :
    chunks l (n + 1) = l.take (n + 1) :: chunks (l.drop (n + 1)) (n + 1) := by
  obtain ⟨a, t, rfl⟩ := List.exists_cons_of_ne_nil hl
  rw [chunks]

/-- C7: for every list and chunk size `n ≥ 1`, `chunks` yields exactly
⌈len/n⌉ contiguous chunks whose concatenation is the input, each chunk of at
most `n` elements with every chunk but the last of exactly `n`; and 130
addresses with chunk size 64 give exactly the three chunk sizes 64, 64, 2. -/
theorem chunks_correct {α : Type} (l : List α) (n : Nat) (hn : 1 ≤ n) :
    (chunks l n).length = (l.length + n - 1) / n ∧
    (chunks l n).flatten = l ∧
    (∀ c ∈ chunks l n, c.length ≤ n) ∧
    (∀ c ∈ (chunks l n).dropLast, c.length = n) ∧
    (chunks (List.range 130) 64).map List.length = [64, 64, 2] := by
  refine ⟨chunks_length l n hn, chunks_flatten l n hn, chunks_le l n hn,
    chunks_dropLast l n hn, ?_⟩
  have h4 : (((List.range 130).drop 64).drop 64).drop 64 = [] := by decide
  rw [chunks_eq_cons (List.range 130) 63 (by decide),
    chunks_eq_cons ((List.range 130).drop 64) 63 (by decide),
    chunks_eq_cons (((List.range 130).drop 64).drop 64) 63 (by decide),
    h4, chunks_nil]
  decide

/-- Witness for C7: the chunking theorem applied to the 130-address list with
chunk size 64. -/
theorem chunks_correct_witness :
    (chunks (List.range 130) 64).length = 3 ∧
    (chunks (List.range 130) 64).flatten = List.range 130 := by
  have h := chunks_correct (List.range 130) 64 (by omega)
  refine ⟨?_, h.2.1⟩
  have h1 := h.1
  norm_num at h1
  simpa using h1

/-- Outcome of one extrinsic submission, as seen by `submit_extrinsic`:
either the chain returned a receipt (with its success flag and triggered
event count) or the transport layer raised `SubstrateRequestException`. -/
inductive SubmitOutcome where
  | receipt (success : Bool) (triggered_event_count : Nat)
  | transportError
  deriving DecidableEq, Repr

/-- The log lines `submit_extrinsic` can emit, by meaning. -/
inductive LogEntry where
  | extrinsicToBeSent
  | includedInBlock
  | extrinsicSuccess
  | fewerEventsThanExpected
  | extrinsicFailedWarning
  | notSendingDryRun
  | failedToSubmitWarning
  deriving DecidableEq, Repr

/-- Model of `submit_extrinsic`: returns the emitted log lines and whether an
exception was re-raised.  An unsuccessful receipt only logs a warning
(`extrinsicFailedWarning`); a transport error logs `failedToSubmitWarning`
and re-raises (second component `true`); in dry-run mode nothing is
submitted. -/
def submit_extrinsic (outcome : SubmitOutcome) (expected_number_of_events : Nat)
    (dry_run : Bool) : List LogEntry × Bool :=
  if dry_run then ([LogEntry.extrinsicToBeSent, LogEntry.notSendingDryRun], false)
  else
    match outcome with
    | SubmitOutcome.receipt true events =>
      ([LogEntry.extrinsicToBeSent, LogEntry.includedInBlock, LogEntry.extrinsicSuccess] ++
        (if events < expected_number_of_events then [LogEntry.fewerEventsThanExpected]
         else []), false)
    | SubmitOutcome.receipt false _ =>
      ([LogEntry.extrinsicToBeSent, LogEntry.includedInBlock,
        LogEntry.extrinsicFailedWarning], false)
    | SubmitOutcome.transportError =>
      ([LogEntry.extrinsicToBeSent, LogEntry.failedToSubmitWarning], true)

/-- The chunk loop shared by `batch_transfer` and `upgrade_accounts`: submit
chunk `i`, abort the whole call if the submission raised, otherwise continue
with chunk `i+1`.  Returns how many chunks were built and submitted and
whether the call aborted with a propagated exception. -/
def dispatch_chunks (outcome_of : Nat → SubmitOutcome) (dry_run : Bool) :
    Nat → List (List Nat) → Nat × Bool
  | _, [] => (0, false)
  | i, c :: rest =>
    let r := submit_extrinsic (outcome_of i) c.length dry_run
    if r.2 then (1, true)
    else
      let r2 := dispatch_chunks outcome_of dry_run (i + 1) rest
      (r2.1 + 1, r2.2)

/-- Model of `batch_transfer`: chunk the account list by
`transfer_calls_in_batch` and submit one batched call per chunk,
sequentially. -/
def batch_transfer (accounts : List Nat) (transfer_calls_in_batch : Nat)
    (outcome_of : Nat → SubmitOutcome) (dry_run : Bool) : Nat × Bool :=
  dispatch_chunks outcome_of dry_run 0 (chunks accounts transfer_calls_in_batch)

/-- If no chunk submission raises a transport error, the dispatcher submits
every chunk and does not abort. -/
theorem dispatch_chunks_all_ok (outcome_of : Nat → SubmitOutcome) (s : Nat)
    (cs : List (List Nat))
    (h : ∀ j, outcome_of j ≠ SubmitOutcome.transportError) :
    dispatch_chunks outcome_of false s cs = (cs.length, false) := by
  induction cs generalizing s with
  | nil => rfl
  | cons c rest ih =>
    rw [dispatch_chunks]
    have hb : (submit_extrinsic (outcome_of s) c.length false).2 = false := by
      rcases ho : outcome_of s with ⟨b, k⟩ | _
      · cases b <;> simp [submit_extrinsic]
      · exact absurd ho (h s)
    rw [hb]
    simp [ih (s + 1)]

/-- If the first transport error happens at chunk index `i` (relative to the
start index `s`), the dispatcher submits exactly `i + 1` chunks and aborts. -/
theorem dispatch_chunks_abort (outcome_of : Nat → SubmitOutcome) (s i : Nat)
    (cs : List (List Nat)) (hlt : i < cs.length)
    (hpre : ∀ j, j < i → outcome_of (s + j) ≠ SubmitOutcome.transportError)
    (hi : outcome_of (s + i) = SubmitOutcome.transportError) :
    dispatch_chunks outcome_of false s cs = (i + 1, true) := by
  induction cs generalizing s i with
  | nil => simp at hlt
  | cons c rest ih =>
    rw [dispatch_chunks]
    cases i with
    | zero =>
      have hb : (submit_extrinsic (outcome_of s) c.length false).2 = true := by
        simp at hi
        simp [submit_extrinsic, hi]
      rw [hb]
      simp
    | succ k =>
      have hs : outcome_of s ≠ SubmitOutcome.transportError := by
        have := hpre 0 (by omega)
        simpa using this
      have hb : (submit_extrinsic (outcome_of s) c.length false).2 = false := by
        rcases ho : outcome_of s with ⟨b, m⟩ | _
        · cases b <;> simp [submit_extrinsic]
        · exact absurd ho hs
      rw [hb]
      have hrec := ih (s + 1) k (by simpa using hlt)
        (fun j hj => by
          have := hpre (j + 1) (by omega)
          simpa [Nat.add_assoc, Nat.add_comm 1 j] using this)
        (by
          have : s + 1 + k = s + (k + 1) := by omega
          rw [this]
          exact hi)
      simp [hrec]

/-- C8: an inclusion failure (receipt with `success = false`) is logged as a
warning and does not stop the run — with no transport error every chunk is
built and submitted — whereas a transport-level exception during chunk `i`'s
submission aborts the whole dispatcher call after exactly `i + 1` chunks, so
no later chunk is built. -/
theorem dispatcher_error_policy (accounts : List Nat) (n : Nat)
    (outcome_of : Nat → SubmitOutcome) (i events expected : Nat) :
    ((∀ j, outcome_of j ≠ SubmitOutcome.transportError) →
      batch_transfer accounts n outcome_of false
        = ((chunks accounts n).length, false)) ∧
    (i < (chunks accounts n).length →
      (∀ j, j < i → outcome_of j ≠ SubmitOutcome.transportError) →
      outcome_of i = SubmitOutcome.transportError →
      batch_transfer accounts n outcome_of false = (i + 1, true)) ∧
    submit_extrinsic (SubmitOutcome.receipt false events) expected false
      = ([LogEntry.extrinsicToBeSent, LogEntry.includedInBlock,
          LogEntry.extrinsicFailedWarning], false) ∧
    submit_extrinsic SubmitOutcome.transportError expected false
      = ([LogEntry.extrinsicToBeSent, LogEntry.failedToSubmitWarning], true) := by
  refine ⟨fun h => dispatch_chunks_all_ok outcome_of 0 _ h, fun hlt hpre hi => ?_,
    rfl, rfl⟩
  exact dispatch_chunks_abort outcome_of 0 i _ hlt
    (fun j hj => by simpa using hpre j hj) (by simpa using hi)

/-- A submission environment whose second chunk hits a transport error and
every other chunk succeeds. -/
def out1 : Nat → SubmitOutcome := fun j =>
  if j = 1 then SubmitOutcome.transportError else SubmitOutcome.receipt true 64

/-- Witness for C8: on 130 accounts chunked by 64 (three chunks) with a
transport error on chunk 2, exactly two chunks are submitted and the call
aborts, so chunk 3 is never built. -/
theorem dispatcher_error_policy_witness :
    batch_transfer (List.range 130) 64 out1 false = (2, true) := by
  have hlen : (chunks (List.range 130) 64).length = 3 := by
    rw [chunks_length (List.range 130) 64 (by omega)]
    simp
  refine (dispatcher_error_policy (List.range 130) 64 out1 1 0 0).2.1 ?_ ?_ ?_
  · rw [hlen]
    omega
  · intro j hj
    have hj0 : j = 0 := by omega
    subst hj0
    decide
  · decide

/-- The fatal precondition checks of `__main__`, in source order: exit 1 when
a remediation flag is set but the `SENDER_ACCOUNT` env variable is absent;
exit 2 when `--fix-free-balance` is requested on a chain that is not pre-12;
exit 3 when `--upgrade-accounts` is requested on a chain that is not
at-least-12; `none` when no fatal precondition fails. -/
def main_precheck (fix_free_balance upgrade_accounts_switch : Bool)
    (sender_account_env : Option String)
    (chain_major_version : ChainMajorVersion) : Option Nat :=
  if (fix_free_balance || upgrade_accounts_switch) && sender_account_env.isNone then
    some 1
  else if fix_free_balance &&
      !(decide (chain_major_version = ChainMajorVersion.PRE_12_MAJOR_VERSION)) then
    some 2
  else if upgrade_accounts_switch &&
      !(decide (chain_major_version = ChainMajorVersion.AT_LEAST_12_MAJOR_VERSION)) then
    some 3
  else none

/-- Model of `perform_account_sanity_checks`: the artifact writes it performs.
The file is written only when the violation list is nonempty. -/
def perform_account_sanity_checks (chain_major_version : ChainMajorVersion) (ed : Nat)
    (account_pages : List (List (Nat × AccountInfo))) :
    List (String × List (Nat × AccountInfo)) :=
  let invalid_accounts :=
    (filter_false_accounts check_account_invariants chain_major_version ed
      account_pages).2
  if invalid_accounts.length > 0 then
    [("accounts-with-failed-invariants.json", invalid_accounts)]
  else []

/-- The artifact writes of the `--fix-free-balance` branch of `__main__`:
`dust-accounts.json` is written only when the dust scan found at least one
account; `none` when the dust scan itself aborted. -/
def fix_free_balance_artifacts (ed : Nat) (chain_major_version : ChainMajorVersion)
    (account_pages : List (List (Nat × AccountInfo))) :
    Option (List (String × List (Nat × AccountInfo))) :=
  match find_dust_accounts ed chain_major_version account_pages with
  | none => none
  | some r =>
    some (if r.2.length > 0 then [("dust-accounts.json", r.2)] else [])

/-- Applying a list of artifact writes to a file system (a map from file name
to content): later writes overwrite, untouched names keep their content. -/
def apply_writes (writes : List (String × List (Nat × AccountInfo)))
    (fs : String → Option (List (Nat × AccountInfo))) :
    String → Option (List (Nat × AccountInfo)) :=
  writes.foldl (fun acc w => fun name => if name = w.1 then some w.2 else acc name) fs

/-- Model of the `__main__` run after connecting: a fatal precheck exits with
its code before any scan or remediation work; otherwise the run produces the
artifact writes of the optional fix branch followed by the final sanity
check. -/
def main_outcome (fix_free_balance upgrade_accounts_switch : Bool)
    (sender_account_env : Option String) (chain_major_version : ChainMajorVersion)
    (ed : Nat) (account_pages : List (List (Nat × AccountInfo))) :
    Except Nat (List (String × List (Nat × AccountInfo))) :=
  match main_precheck fix_free_balance upgrade_accounts_switch sender_account_env
      chain_major_version with
  | some code => Except.error code
  | none =>
    let fix_writes :=
      if fix_free_balance then
        match find_dust_accounts ed chain_major_version account_pages with
        | some r => if r.2.length > 0 then [("dust-accounts.json", r.2)] else []
        | none => []
      else []
    Except.ok (fix_writes ++
      perform_account_sanity_checks chain_major_version ed account_pages)

/-- C9: a remediation flag with no `SENDER_ACCOUNT` credential exits with
code 1; `--fix-free-balance` with a credential on a non-pre-12 chain exits
with code 2; `--upgrade-accounts` with a credential on a non-at-least-12
chain exits with code 3; and whenever a precheck fires, the run ends as that
error before any scan or remediation work is performed. -/
theorem main_exit_codes (ff ua : Bool) (sender : Option String)
    (v : ChainMajorVersion) :
    ((ff || ua) = true → sender = none → main_precheck ff ua sender v = some 1) ∧
    (ff = true → sender.isSome = true → v ≠ ChainMajorVersion.PRE_12_MAJOR_VERSION →
      main_precheck ff ua sender v = some 2) ∧
    (ua = true → ff = false → sender.isSome = true →
      v ≠ ChainMajorVersion.AT_LEAST_12_MAJOR_VERSION →
      main_precheck ff ua sender v = some 3) ∧
    (∀ ed pages c, main_precheck ff ua sender v = some c →
      main_outcome ff ua sender v ed pages = Except.error c) := by
  refine ⟨fun h1 h2 => ?_, fun hf hs hv => ?_, fun hu hff hs hv => ?_,
    fun ed pages c h => ?_⟩
  · subst h2
    simp [main_precheck, h1]
  · obtain ⟨s, rfl⟩ := Option.isSome_iff_exists.mp hs
    simp [main_precheck, hf, hv]
  · obtain ⟨s, rfl⟩ := Option.isSome_iff_exists.mp hs
    simp [main_precheck, hu, hff, hv]
  · simp [main_outcome, h]

/-- A placeholder sender seed for concrete runs. -/
def sampleSeed : String := "sender-mnemonic"

/-- Witness for C9: each exit code at a concrete configuration, and the
immediate-error outcome for code 1. -/
theorem main_exit_codes_witness :
    main_precheck true false none ChainMajorVersion.PRE_12_MAJOR_VERSION = some 1 ∧
    main_precheck true false (some sampleSeed)
      ChainMajorVersion.AT_LEAST_12_MAJOR_VERSION = some 2 ∧
    main_precheck false true (some sampleSeed)
      ChainMajorVersion.PRE_12_MAJOR_VERSION = some 3 ∧
    main_outcome true false none ChainMajorVersion.PRE_12_MAJOR_VERSION 0 []
      = Except.error 1 := by
  have h1 := (main_exit_codes true false none
    ChainMajorVersion.PRE_12_MAJOR_VERSION).1 rfl rfl
  refine ⟨h1, ?_, ?_, ?_⟩
  · exact (main_exit_codes true false (some sampleSeed)
      ChainMajorVersion.AT_LEAST_12_MAJOR_VERSION).2.1 rfl rfl (by decide)
  · exact (main_exit_codes false true (some sampleSeed)
      ChainMajorVersion.PRE_12_MAJOR_VERSION).2.2.1 rfl rfl rfl (by decide)
  · exact (main_exit_codes true false none
      ChainMajorVersion.PRE_12_MAJOR_VERSION).2.2.2 0 [] 1 h1

/-- C10: when a scan finds no non-conforming account, the corresponding
artifact file is not written at all — the write list is empty, and applying
it leaves every pre-existing file unchanged; an artifact write is produced
exactly when the scan result is nonempty. -/
theorem empty_scan_writes_no_artifact :
    (∀ (v : ChainMajorVersion) (ed : Nat) (pages : List (List (Nat × AccountInfo))),
      (filter_false_accounts check_account_invariants v ed pages).2 = [] →
        perform_account_sanity_checks v ed pages = [] ∧
        ∀ fs, apply_writes (perform_account_sanity_checks v ed pages) fs = fs) ∧
    (∀ (v : ChainMajorVersion) (ed : Nat) (pages : List (List (Nat × AccountInfo))),
      (filter_false_accounts check_account_invariants v ed pages).2 ≠ [] →
        perform_account_sanity_checks v ed pages
          = [("accounts-with-failed-invariants.json",
              (filter_false_accounts check_account_invariants v ed pages).2)]) ∧
    (∀ (ed : Nat) (v : ChainMajorVersion)
       (pages : List (List (Nat × AccountInfo))) (r : Nat × List (Nat × AccountInfo)),
      find_dust_accounts ed v pages = some r →
        (r.2 = [] →
          fix_free_balance_artifacts ed v pages = some [] ∧
          ∀ fs, apply_writes [] fs = fs) ∧
        (r.2 ≠ [] →
          fix_free_balance_artifacts ed v pages
            = some [("dust-accounts.json", r.2)])) := by
  refine ⟨fun v ed pages h => ?_, fun v ed pages h => ?_,
    fun ed v pages r h => ⟨fun hr => ?_, fun hr => ?_⟩⟩
  · constructor
    · simp [perform_account_sanity_checks, h]
    · intro fs
      simp [perform_account_sanity_checks, h, apply_writes]
  · have hlen : 0 < (filter_false_accounts check_account_invariants v ed pages).2.length :=
      List.length_pos.mpr h
    simp [perform_account_sanity_checks, hlen]
  · constructor
    · simp [fix_free_balance_artifacts, h, hr]
    · intro fs
      rfl
  · have hlen : 0 < r.2.length := List.length_pos.mpr hr
    simp [fix_free_balance_artifacts, h, hlen]

/-- Witness for C10: a one-account chain whose account meets the pre-12
invariants and is not dust produces neither artifact file. -/
theorem empty_scan_writes_no_artifact_witness :
    perform_account_sanity_checks ChainMajorVersion.PRE_12_MAJOR_VERSION 0
      [[(1, mkAccount 5)]] = [] ∧
    fix_free_balance_artifacts 0 ChainMajorVersion.PRE_12_MAJOR_VERSION
      [[(1, mkAccount 5)]] = some [] := by
  constructor
  · exact (empty_scan_writes_no_artifact.1 ChainMajorVersion.PRE_12_MAJOR_VERSION 0
      [[(1, mkAccount 5)]] (by decide)).1
  · exact ((empty_scan_writes_no_artifact.2.2 0 ChainMajorVersion.PRE_12_MAJOR_VERSION
      [[(1, mkAccount 5)]] (1, []) (by decide)).1 rfl).1
